import Mathlib

/-!
Shallow embedding of the OrderMaster client components.

Sources embedded here:
- `src/client/src/components/ui/modals/ApartmentModal.tsx` (namespace
  `ApartmentModalFull`): the apartment create/edit modal with inline
  employee creation and employee search.
- `src/unnamed/part_000` (namespace `ApartmentModalBasic`): the variant
  of the same modal without inline employee creation and search.
- `src/client/src/pages/statistics.tsx` (namespace `Statistics`).
- `src/client/src/components/ui/data-display/EmployeeCard.tsx`
  (namespace `EmployeeCard`).

JavaScript/TypeScript semantics relevant at this granularity are made
explicit: `x || y` on strings falls back when `x` is the empty string,
optional chaining on a missing object yields the fallback, `toLowerCase`
maps characters to lower case, and `String.includes` is contiguous
substring containment.
-/

/-- An employee record as delivered by the API: id, first name, last name. -/
structure Employee where
  id : Int
  first_name : String
  last_name : String
deriving Repr, DecidableEq

/-- An apartment (cleaning job) record: `start_time`, `end_time` and `notes`
are nullable in the data source, hence `Option String` here. `employees`
is the list of assigned employee records. -/
structure Apartment where
  name : String
  cleaning_date : String
  start_time : Option String
  end_time : Option String
  status : String
  payment_status : String
  notes : Option String
  employees : List Employee
deriving Repr, DecidableEq

/-- The apartment form state (`ApartmentFormData`): every text field is a
string (the form never holds `null`), `employee_ids` is the list of ids of
the checked employee checkboxes. -/
structure ApartmentFormData where
  name : String
  cleaning_date : String
  start_time : String
  end_time : String
  status : String
  payment_status : String
  notes : String
  employee_ids : List Int
deriving Repr, DecidableEq

/-- The closed set of apartment statuses, from the zod enum
`z.enum(["Da Fare", "In Corso", "Fatto"])`. -/
def statusValues : List String := ["Da Fare", "In Corso", "Fatto"]

/-- The closed set of payment statuses, from the zod enum
`z.enum(["Da Pagare", "Pagato"])`. -/
def paymentStatusValues : List String := ["Da Pagare", "Pagato"]

/-- JavaScript `x || y` on strings: the empty string is falsy. -/
def jsOrStr (x y : String) : String := if x = "" then y else x

/-- JavaScript `a?.f || y` where the chain may be missing: `none` (undefined
or null) and the empty string both fall back to `y`. -/
def jsOrOpt (x : Option String) (y : String) : String :=
  match x with
  | none => y
  | some s => jsOrStr s y

/-- JavaScript `String.prototype.toLowerCase` (ASCII-faithful). -/
def jsToLowerCase (s : String) : String := s.map Char.toLower

/-- JavaScript `hay.includes(needle)`: contiguous substring containment. -/
def jsIncludes (hay needle : String) : Bool := decide (needle.data <:+: hay.data)

namespace ApartmentModalFull

/-- `formSchema` of `ApartmentModal.tsx` as a boolean check on a typed form
state: `name` and `cleaning_date` need length at least 1 (`min(1)`), `status`
and `payment_status` must lie in their zod enums; `start_time`, `end_time`,
`notes` are optional strings and `employee_ids` an array of numbers, which
the typed state satisfies by construction. -/
def formSchemaCheck (v : ApartmentFormData) : Bool :=
  decide (1 ≤ v.name.length) && decide (1 ≤ v.cleaning_date.length) &&
  statusValues.contains v.status && paymentStatusValues.contains v.payment_status

/-- The `defaultValues` object passed to `useForm` in `ApartmentModal.tsx`
(lines 44-53): each field is `apartment?.field || fallback`, and
`employee_ids` is `apartment?.employees.map(e => e.id) || []`. -/
def initialValues (apartment : Option Apartment) : ApartmentFormData :=
  { name := jsOrOpt (apartment.map Apartment.name) ""
    cleaning_date := jsOrOpt (apartment.map Apartment.cleaning_date) ""
    start_time := jsOrOpt (apartment.bind Apartment.start_time) ""
    end_time := jsOrOpt (apartment.bind Apartment.end_time) ""
    status := jsOrOpt (apartment.map Apartment.status) "Da Fare"
    payment_status := jsOrOpt (apartment.map Apartment.payment_status) "Da Pagare"
    notes := jsOrOpt (apartment.bind Apartment.notes) ""
    employee_ids :=
      match apartment with
      | none => []
      | some a => a.employees.map Employee.id }

/-- The argument of `form.reset` in the `useEffect` of `ApartmentModal.tsx`
(lines 89-98), textually the same field computations as `defaultValues`. -/
def resetValues (apartment : Option Apartment) : ApartmentFormData :=
  { name := jsOrOpt (apartment.map Apartment.name) ""
    cleaning_date := jsOrOpt (apartment.map Apartment.cleaning_date) ""
    start_time := jsOrOpt (apartment.bind Apartment.start_time) ""
    end_time := jsOrOpt (apartment.bind Apartment.end_time) ""
    status := jsOrOpt (apartment.map Apartment.status) "Da Fare"
    payment_status := jsOrOpt (apartment.map Apartment.payment_status) "Da Pagare"
    notes := jsOrOpt (apartment.bind Apartment.notes) ""
    employee_ids :=
      match apartment with
      | none => []
      | some a => a.employees.map Employee.id }

/-- The `useEffect` body (lines 87-102): when `isOpen` holds, the form state
is replaced by `resetValues apartment`; otherwise nothing happens. -/
def resetEffect (isOpen : Bool) (apartment : Option Apartment)
    (current : ApartmentFormData) : ApartmentFormData :=
  if isOpen then resetValues apartment else current

/-- `form.handleSubmit(onSubmit)`: the submit callback receives the form
values exactly when the resolver (`zodResolver(formSchema)`) accepts them.
`some v` means `onSubmit` is invoked with `v`; `none` means it is not. -/
def handleSubmit (v : ApartmentFormData) : Option ApartmentFormData :=
  if formSchemaCheck v then some v else none

/-- The `onCheckedChange` handler of an employee checkbox (lines 268-273):
`checked` appends the id, unchecked filters it out
(`field.value.filter(value => value !== employee.id)`). -/
def onCheckedChange (fieldValue : List Int) (employeeId : Int)
    (checked : Bool) : List Int :=
  if checked then fieldValue ++ [employeeId]
  else fieldValue.filter (fun value => value != employeeId)

/-- The rendered checked state of an employee checkbox (line 267):
`field.value?.includes(employee.id)`. -/
def checkboxChecked (fieldValue : List Int) (employeeId : Int) : Bool :=
  fieldValue.contains employeeId

/-- A user toggle of the checkbox for `employeeId`: the UI invokes
`onCheckedChange` with the negation of the currently rendered checked
state. -/
def toggleEmployee (fieldValue : List Int) (employeeId : Int) : List Int :=
  onCheckedChange fieldValue employeeId (! checkboxChecked fieldValue employeeId)

/-- The new-employee sub-form fields, `{ first_name, last_name }`. -/
structure NewEmployee where
  first_name : String
  last_name : String
deriving Repr, DecidableEq

/-- `newEmployeeSchema`: both names need length at least 1. -/
def newEmployeeSchemaCheck (e : NewEmployee) : Bool :=
  decide (1 ≤ e.first_name.length) && decide (1 ≤ e.last_name.length)

/-- The component state touched by `handleAddNewEmployee`: the sub-form
fields and the `showAddEmployee` disclosure flag. -/
structure AddEmployeeState where
  newEmployee : NewEmployee
  showAddEmployee : Bool
deriving Repr, DecidableEq

/-- A toast notification as produced by `useToast`. -/
structure Toast where
  title : String
  description : String
  destructive : Bool
deriving Repr, DecidableEq

/-- The observable outcome of one run of `handleAddNewEmployee`: whether the
POST request was issued, the toast shown, and the resulting component
state. -/
structure AddEmployeeOutcome where
  requestIssued : Bool
  toast : Toast
  finalState : AddEmployeeState
deriving Repr, DecidableEq

/-- `handleAddNewEmployee` (lines 57-73). `safeParse` failure: destructive
toast, early return, no request. Otherwise the POST is issued;
`requestSucceeds` abstracts its result and `errMsg` the thrown message. On
success the fields are cleared and the sub-form closed; in the catch branch
only a destructive toast is shown and the state is left as it was. -/
def handleAddNewEmployee (st : AddEmployeeState) (requestSucceeds : Bool)
    (errMsg : String) : AddEmployeeOutcome :=
  if newEmployeeSchemaCheck st.newEmployee then
    if requestSucceeds then
      { requestIssued := true
        toast := { title := "Successo"
                   description := "Dipendente aggiunto con successo."
                   destructive := false }
        finalState := { newEmployee := { first_name := "", last_name := "" }
                        showAddEmployee := false } }
    else
      { requestIssued := true
        toast := { title := "Errore"
                   description := "Errore durante l\x27aggiunta: " ++ errMsg
                   destructive := true }
        finalState := st }
  else
    { requestIssued := false
      toast := { title := "Errore"
                 description := "Nome e cognome sono obbligatori."
                 destructive := true }
      finalState := st }

/-- The checkbox label text, also the string the search matches against:
`` `${employee.first_name} ${employee.last_name}` ``. -/
def employeeFullName (e : Employee) : String :=
  e.first_name ++ " " ++ e.last_name

/-- `filteredEmployees` (lines 76-83): a falsy (empty) search shows the whole
list, otherwise the list filtered to employees whose lower-cased full name
includes the lower-cased search string. -/
def filteredEmployees (employees : List Employee)
    (employeeSearch : String) : List Employee :=
  if employeeSearch = "" then employees
  else employees.filter (fun employee =>
    jsIncludes (jsToLowerCase (employeeFullName employee))
      (jsToLowerCase employeeSearch))

end ApartmentModalFull

namespace ApartmentModalBasic

/-- `formSchema` of `src/unnamed/part_000` (lines 15-24), embedded the same
way as in the other variant. -/
def formSchemaCheck (v : ApartmentFormData) : Bool :=
  decide (1 ≤ v.name.length) && decide (1 ≤ v.cleaning_date.length) &&
  statusValues.contains v.status && paymentStatusValues.contains v.payment_status

/-- `defaultValues` of the basic variant (lines 32-41). -/
def initialValues (apartment : Option Apartment) : ApartmentFormData :=
  { name := jsOrOpt (apartment.map Apartment.name) ""
    cleaning_date := jsOrOpt (apartment.map Apartment.cleaning_date) ""
    start_time := jsOrOpt (apartment.bind Apartment.start_time) ""
    end_time := jsOrOpt (apartment.bind Apartment.end_time) ""
    status := jsOrOpt (apartment.map Apartment.status) "Da Fare"
    payment_status := jsOrOpt (apartment.map Apartment.payment_status) "Da Pagare"
    notes := jsOrOpt (apartment.bind Apartment.notes) ""
    employee_ids :=
      match apartment with
      | none => []
      | some a => a.employees.map Employee.id }

/-- The `form.reset` argument of the basic variant (lines 47-56). -/
def resetValues (apartment : Option Apartment) : ApartmentFormData :=
  { name := jsOrOpt (apartment.map Apartment.name) ""
    cleaning_date := jsOrOpt (apartment.map Apartment.cleaning_date) ""
    start_time := jsOrOpt (apartment.bind Apartment.start_time) ""
    end_time := jsOrOpt (apartment.bind Apartment.end_time) ""
    status := jsOrOpt (apartment.map Apartment.status) "Da Fare"
    payment_status := jsOrOpt (apartment.map Apartment.payment_status) "Da Pagare"
    notes := jsOrOpt (apartment.bind Apartment.notes) ""
    employee_ids :=
      match apartment with
      | none => []
      | some a => a.employees.map Employee.id }

/-- The `useEffect` body of the basic variant (lines 45-58). -/
def resetEffect (isOpen : Bool) (apartment : Option Apartment)
    (current : ApartmentFormData) : ApartmentFormData :=
  if isOpen then resetValues apartment else current

/-- `form.handleSubmit(onSubmit)` of the basic variant. -/
def handleSubmit (v : ApartmentFormData) : Option ApartmentFormData :=
  if formSchemaCheck v then some v else none

/-- The `onCheckedChange` handler of the basic variant (lines 227-235):
`checked ? field.onChange([...field.value, employee.id]) :
field.onChange(field.value?.filter(value => value !== employee.id))`. -/
def onCheckedChange (fieldValue : List Int) (employeeId : Int)
    (checked : Bool) : List Int :=
  if checked then fieldValue ++ [employeeId]
  else fieldValue.filter (fun value => value != employeeId)

end ApartmentModalBasic

namespace Statistics

/-- `topEmployee` of the statistics payload. -/
structure TopEmployee where
  name : String
  count : Nat
deriving Repr, DecidableEq

/-- A `{ name, value }` entry of a status-count grouping. -/
structure NameValue where
  name : String
  value : Nat
deriving Repr, DecidableEq

/-- A `{ name, total }` entry of the monthly grouping. -/
structure MonthTotal where
  name : String
  total : Nat
deriving Repr, DecidableEq

/-- `busiestDay` of the statistics payload: a date string (or the sentinel
string when absent) and a count. -/
structure BusiestDay where
  date : String
  count : Nat
deriving Repr, DecidableEq

/-- The `StatisticsData` payload type of `statistics.tsx` (lines 28-41). -/
structure StatisticsData where
  totalOrders : Nat
  topEmployee : TopEmployee
  orderStatusCounts : List NameValue
  paymentStatusCounts : List NameValue
  ordersByMonth : List MonthTotal
  busiestDay : BusiestDay
deriving Repr, DecidableEq

/-- `formattedBusiestDay` (lines 105-107), parameterised by the external
date formatter `formatDateForDisplay` (imported from `lib/date-utils`,
outside the embedded sources): format the date unless it is the sentinel. -/
def formattedBusiestDay (formatDateForDisplay : String → String)
    (stats : StatisticsData) : String :=
  if stats.busiestDay.date != "N/A" then formatDateForDisplay stats.busiestDay.date
  else "N/A"

/-- The noun choice of the top-employee card (line 134):
`stats.topEmployee.count === 1 ? "ordine" : "ordini"`. -/
def topEmployeeNoun (stats : StatisticsData) : String :=
  if stats.topEmployee.count == 1 then "ordine" else "ordini"

/-- The noun choice of the busiest-day card (line 147):
`stats.busiestDay.count === 1 ? "ordine" : "ordini"`. -/
def busiestDayNoun (stats : StatisticsData) : String :=
  if stats.busiestDay.count == 1 then "ordine" else "ordini"

end Statistics

namespace EmployeeCard

/-- `EmployeeWithAssignedApartments`: an employee together with the list of
currently assigned apartments (the card only reads its length). -/
structure EmployeeWithAssignedApartments where
  id : Int
  first_name : String
  last_name : String
  apartments : List Apartment
deriving Repr, DecidableEq

/-- `assignmentCount = employee.apartments.length` (line 11). -/
def assignmentCount (employee : EmployeeWithAssignedApartments) : Nat :=
  employee.apartments.length

/-- The noun phrase of the card (line 28):
`assignmentCount === 1 ? "ordine assegnato" : "ordini assegnati"`. -/
def assignmentNoun (employee : EmployeeWithAssignedApartments) : String :=
  if assignmentCount employee == 1 then "ordine assegnato" else "ordini assegnati"

end EmployeeCard

/-! Helper lemmas about the JavaScript primitives. -/

/-- A string has length at least 1 exactly when it is non-empty
(the meaning of the zod `min(1)` rule). -/
theorem one_le_length_iff (s : String) : 1 ≤ s.length ↔ s ≠ "" := by
  rw [Nat.one_le_iff_ne_zero]
  constructor
  · intro h hs
    exact h (by simp [hs])
  · intro h hl
    apply h
    cases s with
    | mk data =>
      cases data with
      | nil => rfl
      | cons a l => simp [String.length] at hl

/-- `x || ""` on a string is the string itself. -/
theorem jsOrStr_empty (s : String) : jsOrStr s "" = s := by
  unfold jsOrStr
  split
  · simp [*]
  · rfl

/-- `a?.f || ""` on a nullable string is the string, with null and undefined
becoming the empty string. -/
theorem jsOrOpt_empty (o : Option String) : jsOrOpt o "" = o.getD "" := by
  cases o with
  | none => rfl
  | some s => simp [jsOrOpt, jsOrStr_empty]

/-- Lowercasing the empty string gives the empty string. -/
theorem jsToLowerCase_empty : jsToLowerCase "" = "" := by
  simp [jsToLowerCase, String.map_eq]

/-- Every string includes the empty string. -/
theorem jsIncludes_empty (hay : String) : jsIncludes hay "" = true := by
  simp [jsIncludes]

/-! Claim theorems. -/

/-- C3: the two apartment-modal variants agree on all shared functionality:
the validation schema, the initial form values, the reset values, the reset
effect, the gated submit callback, and the checkbox change handler coincide
for all inputs. -/
theorem c3_variants_equivalent :
    (∀ v : ApartmentFormData,
      ApartmentModalFull.formSchemaCheck v = ApartmentModalBasic.formSchemaCheck v) ∧
    (∀ apartment : Option Apartment,
      ApartmentModalFull.initialValues apartment = ApartmentModalBasic.initialValues apartment) ∧
    (∀ apartment : Option Apartment,
      ApartmentModalFull.resetValues apartment = ApartmentModalBasic.resetValues apartment) ∧
    (∀ (isOpen : Bool) (apartment : Option Apartment) (current : ApartmentFormData),
      ApartmentModalFull.resetEffect isOpen apartment current =
        ApartmentModalBasic.resetEffect isOpen apartment current) ∧
    (∀ v : ApartmentFormData,
      ApartmentModalFull.handleSubmit v = ApartmentModalBasic.handleSubmit v) ∧
    (∀ (fieldValue : List Int) (employeeId : Int) (checked : Bool),
      ApartmentModalFull.onCheckedChange fieldValue employeeId checked =
        ApartmentModalBasic.onCheckedChange fieldValue employeeId checked) :=
  ⟨fun _ => rfl, fun _ => rfl, fun _ => rfl, fun _ _ _ => rfl, fun _ => rfl,
   fun _ _ _ => rfl⟩

/-- C4: the submit callback is invoked with the form values exactly when
name and cleaning date are non-empty and the status and payment status lie
in their closed enumerations; start time, end time, notes and employee ids
are unconstrained. -/
theorem c4_submit_iff_valid (v : ApartmentFormData) :
    ApartmentModalFull.handleSubmit v = some v ↔
      (v.name ≠ "" ∧ v.cleaning_date ≠ "" ∧
       v.status ∈ statusValues ∧ v.payment_status ∈ paymentStatusValues) := by
  have hgate : ApartmentModalFull.handleSubmit v = some v ↔
      ApartmentModalFull.formSchemaCheck v = true := by
    unfold ApartmentModalFull.handleSubmit
    split
    · simp [*]
    · simp [*]
  rw [hgate]
  unfold ApartmentModalFull.formSchemaCheck
  simp [List.contains, one_le_length_iff, and_assoc]

/-- C8: the rendered busiest-day value is the sentinel string exactly when
the payload date is the sentinel, and the formatted date otherwise. -/
theorem c8_busiest_day (formatDateForDisplay : String → String)
    (stats : Statistics.StatisticsData) :
    (stats.busiestDay.date = "N/A" →
      Statistics.formattedBusiestDay formatDateForDisplay stats = "N/A") ∧
    (stats.busiestDay.date ≠ "N/A" →
      Statistics.formattedBusiestDay formatDateForDisplay stats =
        formatDateForDisplay stats.busiestDay.date) := by
  unfold Statistics.formattedBusiestDay
  constructor
  · intro h
    simp [h]
  · intro h
    simp [h]

/-- C8 witness: at a snapshot whose busiest day is the sentinel the render
is the sentinel, and at a dated snapshot it is the formatted date. -/
theorem c8_busiest_day_witness :
    (Statistics.formattedBusiestDay (fun d => "<" ++ d ++ ">")
      ⟨42, ⟨"Maria", 9⟩, [], [], [], ⟨"N/A", 0⟩⟩ = "N/A") ∧
    (Statistics.formattedBusiestDay (fun d => "<" ++ d ++ ">")
      ⟨42, ⟨"Maria", 9⟩, [], [], [], ⟨"2024-05-20", 7⟩⟩ = "<2024-05-20>") :=
  ⟨(c8_busiest_day _ _).1 (by decide),
   (c8_busiest_day (fun d => "<" ++ d ++ ">")
      ⟨42, ⟨"Maria", 9⟩, [], [], [], ⟨"2024-05-20", 7⟩⟩).2 (by decide)⟩

/-- C9: at every rendering site that pairs a count with a noun, a count of
exactly 1 yields the singular noun and every other count yields the
plural. -/
theorem c9_pluralization :
    (∀ e : EmployeeCard.EmployeeWithAssignedApartments,
      (EmployeeCard.assignmentCount e = 1 →
        EmployeeCard.assignmentNoun e = "ordine assegnato") ∧
      (EmployeeCard.assignmentCount e ≠ 1 →
        EmployeeCard.assignmentNoun e = "ordini assegnati")) ∧
    (∀ stats : Statistics.StatisticsData,
      (stats.topEmployee.count = 1 → Statistics.topEmployeeNoun stats = "ordine") ∧
      (stats.topEmployee.count ≠ 1 → Statistics.topEmployeeNoun stats = "ordini") ∧
      (stats.busiestDay.count = 1 → Statistics.busiestDayNoun stats = "ordine") ∧
      (stats.busiestDay.count ≠ 1 → Statistics.busiestDayNoun stats = "ordini")) := by
  constructor
  · intro e
    constructor
    · intro h
      simp [EmployeeCard.assignmentNoun, h]
    · intro h
      simp [EmployeeCard.assignmentNoun, h]
  · intro stats
    refine ⟨fun h => ?_, fun h => ?_, fun h => ?_, fun h => ?_⟩
    · simp [Statistics.topEmployeeNoun, h]
    · simp [Statistics.topEmployeeNoun, h]
    · simp [Statistics.busiestDayNoun, h]
    · simp [Statistics.busiestDayNoun, h]

/-- C9 witness: a card with one assigned apartment renders the singular
noun, and a snapshot with counts 9 and 7 renders the plurals. -/
theorem c9_pluralization_witness :
    EmployeeCard.assignmentNoun
      ⟨1, "Maria", "Rossi",
       [⟨"A", "2024-05-20", none, none, "Da Fare", "Da Pagare", none, []⟩]⟩ =
      "ordine assegnato" ∧
    Statistics.topEmployeeNoun ⟨42, ⟨"Maria", 9⟩, [], [], [], ⟨"N/A", 7⟩⟩ = "ordini" ∧
    Statistics.busiestDayNoun ⟨42, ⟨"Maria", 9⟩, [], [], [], ⟨"N/A", 7⟩⟩ = "ordini" :=
  ⟨(c9_pluralization.1
      ⟨1, "Maria", "Rossi",
       [⟨"A", "2024-05-20", none, none, "Da Fare", "Da Pagare", none, []⟩]⟩).1 (by decide),
   (c9_pluralization.2 ⟨42, ⟨"Maria", 9⟩, [], [], [], ⟨"N/A", 7⟩⟩).2.1 (by decide),
   (c9_pluralization.2 ⟨42, ⟨"Maria", 9⟩, [], [], [], ⟨"N/A", 7⟩⟩).2.2.2 (by decide)⟩

/-- C10: in create mode every text field starts (and resets) empty, the two
statuses start at their first enum value and the id list starts empty, in
both variants; in edit mode a missing optional field is coerced to the
empty string by both the initial values and the reset values. -/
theorem c10_defaults_and_coercion :
    (ApartmentModalFull.initialValues none =
      { name := "", cleaning_date := "", start_time := "", end_time := "",
        status := "Da Fare", payment_status := "Da Pagare", notes := "",
        employee_ids := [] }) ∧
    (ApartmentModalFull.resetValues none =
      { name := "", cleaning_date := "", start_time := "", end_time := "",
        status := "Da Fare", payment_status := "Da Pagare", notes := "",
        employee_ids := [] }) ∧
    (ApartmentModalBasic.initialValues none =
      { name := "", cleaning_date := "", start_time := "", end_time := "",
        status := "Da Fare", payment_status := "Da Pagare", notes := "",
        employee_ids := [] }) ∧
    (ApartmentModalBasic.resetValues none =
      { name := "", cleaning_date := "", start_time := "", end_time := "",
        status := "Da Fare", payment_status := "Da Pagare", notes := "",
        employee_ids := [] }) ∧
    (∀ a : Apartment,
      (a.start_time = none →
        (ApartmentModalFull.initialValues (some a)).start_time = "" ∧
        (ApartmentModalFull.resetValues (some a)).start_time = "") ∧
      (a.end_time = none →
        (ApartmentModalFull.initialValues (some a)).end_time = "" ∧
        (ApartmentModalFull.resetValues (some a)).end_time = "") ∧
      (a.notes = none →
        (ApartmentModalFull.initialValues (some a)).notes = "" ∧
        (ApartmentModalFull.resetValues (some a)).notes = "")) := by
  refine ⟨rfl, rfl, rfl, rfl, fun a => ⟨fun h => ?_, fun h => ?_, fun h => ?_⟩⟩
  · constructor
    · simp [ApartmentModalFull.initialValues, h, jsOrOpt]
    · simp [ApartmentModalFull.resetValues, h, jsOrOpt]
  · constructor
    · simp [ApartmentModalFull.initialValues, h, jsOrOpt]
    · simp [ApartmentModalFull.resetValues, h, jsOrOpt]
  · constructor
    · simp [ApartmentModalFull.initialValues, h, jsOrOpt]
    · simp [ApartmentModalFull.resetValues, h, jsOrOpt]

/-- C10 witness: the create-mode defaults hold, and an apartment with null
start time, end time and notes yields empty strings for those fields. -/
theorem c10_defaults_and_coercion_witness :
    (ApartmentModalFull.initialValues none).status = "Da Fare" ∧
    (ApartmentModalFull.initialValues
      (some ⟨"Casa", "2024-05-20", none, none, "Fatto", "Pagato", none,
             [⟨3, "Maria", "Rossi"⟩]⟩)).start_time = "" ∧
    (ApartmentModalFull.resetValues
      (some ⟨"Casa", "2024-05-20", none, none, "Fatto", "Pagato", none,
             [⟨3, "Maria", "Rossi"⟩]⟩)).notes = "" :=
  ⟨congrArg ApartmentFormData.status c10_defaults_and_coercion.1,
   ((c10_defaults_and_coercion.2.2.2.2
      ⟨"Casa", "2024-05-20", none, none, "Fatto", "Pagato", none,
       [⟨3, "Maria", "Rossi"⟩]⟩).1 rfl).1,
   ((c10_defaults_and_coercion.2.2.2.2
      ⟨"Casa", "2024-05-20", none, none, "Fatto", "Pagato", none,
       [⟨3, "Maria", "Rossi"⟩]⟩).2.2 rfl).2⟩

/-- C2: when the effect runs for target apartment `b` (modal open), the
resulting form state does not depend on the prior form state, and every
field equals the corresponding field of `b` (optional fields via the
null-to-empty coercion, the checklist via the ids of `b`'s employees);
with no target apartment the result is the create-mode default state. -/
theorem c2_reset_no_residual (prior : ApartmentFormData) (b : Apartment)
    (hs : b.status ∈ statusValues)
    (hp : b.payment_status ∈ paymentStatusValues) :
    (∀ prior2 : ApartmentFormData,
      ApartmentModalFull.resetEffect true (some b) prior2 =
        ApartmentModalFull.resetEffect true (some b) prior) ∧
    (ApartmentModalFull.resetEffect true (some b) prior).name = b.name ∧
    (ApartmentModalFull.resetEffect true (some b) prior).cleaning_date = b.cleaning_date ∧
    (ApartmentModalFull.resetEffect true (some b) prior).start_time = b.start_time.getD "" ∧
    (ApartmentModalFull.resetEffect true (some b) prior).end_time = b.end_time.getD "" ∧
    (ApartmentModalFull.resetEffect true (some b) prior).status = b.status ∧
    (ApartmentModalFull.resetEffect true (some b) prior).payment_status = b.payment_status ∧
    (ApartmentModalFull.resetEffect true (some b) prior).notes = b.notes.getD "" ∧
    (ApartmentModalFull.resetEffect true (some b) prior).employee_ids =
      b.employees.map Employee.id ∧
    (∀ prior3 : ApartmentFormData,
      ApartmentModalFull.resetEffect true none prior3 =
        { name := "", cleaning_date := "", start_time := "", end_time := "",
          status := "Da Fare", payment_status := "Da Pagare", notes := "",
          employee_ids := [] }) := by
  have hsne : b.status ≠ "" := by
    simp [statusValues] at hs
    rcases hs with h | h | h <;> simp [h]
  have hpne : b.payment_status ≠ "" := by
    simp [paymentStatusValues] at hp
    rcases hp with h | h <;> simp [h]
  unfold ApartmentModalFull.resetEffect ApartmentModalFull.resetValues
  refine ⟨fun _ => rfl, ?_, ?_, ?_, ?_, ?_, ?_, ?_, rfl, fun _ => rfl⟩
  · simp [jsOrOpt_empty]
  · simp [jsOrOpt_empty]
  · simp [jsOrOpt_empty]
  · simp [jsOrOpt_empty]
  · simp [jsOrOpt, jsOrStr, hsne]
  · simp [jsOrOpt, jsOrStr, hpne]
  · simp [jsOrOpt_empty]

/-- C2 witness: switching the open modal to a concrete apartment `b` from a
prior form state filled with other values resets every field to `b`'s. -/
theorem c2_reset_no_residual_witness :
    ((⟨"Casa B", "2024-06-01", some "09:00", none, "In Corso", "Pagato",
       none, [⟨3, "Maria", "Rossi"⟩, ⟨5, "Luca", "Bianchi"⟩]⟩ : Apartment).status
        ∈ statusValues) ∧
    (ApartmentModalFull.resetEffect true
      (some ⟨"Casa B", "2024-06-01", some "09:00", none, "In Corso", "Pagato",
             none, [⟨3, "Maria", "Rossi"⟩, ⟨5, "Luca", "Bianchi"⟩]⟩)
      ⟨"Casa A", "2024-01-01", "08:00", "10:00", "Fatto", "Da Pagare",
       "vecchie note", [1, 2]⟩).employee_ids = [3, 5] :=
  ⟨by decide,
   (c2_reset_no_residual
      ⟨"Casa A", "2024-01-01", "08:00", "10:00", "Fatto", "Da Pagare",
       "vecchie note", [1, 2]⟩
      ⟨"Casa B", "2024-06-01", some "09:00", none, "In Corso", "Pagato",
       none, [⟨3, "Maria", "Rossi"⟩, ⟨5, "Luca", "Bianchi"⟩]⟩
      (by decide) (by decide)).2.2.2.2.2.2.2.2.1⟩

/-- C5: with a blank first or last name, running the sub-form submit issues
no request and shows the destructive validation toast; the request is
issued exactly when both fields are non-empty. -/
theorem c5_subform_validation (st : ApartmentModalFull.AddEmployeeState)
    (requestSucceeds : Bool) (errMsg : String) :
    ((st.newEmployee.first_name = "" ∨ st.newEmployee.last_name = "") →
      (ApartmentModalFull.handleAddNewEmployee st requestSucceeds errMsg).requestIssued
        = false ∧
      (ApartmentModalFull.handleAddNewEmployee st requestSucceeds errMsg).toast =
        { title := "Errore", description := "Nome e cognome sono obbligatori.",
          destructive := true }) ∧
    ((ApartmentModalFull.handleAddNewEmployee st requestSucceeds errMsg).requestIssued
        = true ↔
      st.newEmployee.first_name ≠ "" ∧ st.newEmployee.last_name ≠ "") := by
  have hval : ApartmentModalFull.newEmployeeSchemaCheck st.newEmployee = true ↔
      st.newEmployee.first_name ≠ "" ∧ st.newEmployee.last_name ≠ "" := by
    unfold ApartmentModalFull.newEmployeeSchemaCheck
    simp [one_le_length_iff]
  constructor
  · intro h
    have hv : ApartmentModalFull.newEmployeeSchemaCheck st.newEmployee = false := by
      rcases h with h | h
      · rcases hb : ApartmentModalFull.newEmployeeSchemaCheck st.newEmployee with _ | _
        · rfl
        · exact absurd ((hval.mp hb).1 h) (fun c => c)
      · rcases hb : ApartmentModalFull.newEmployeeSchemaCheck st.newEmployee with _ | _
        · rfl
        · exact absurd ((hval.mp hb).2 h) (fun c => c)
    unfold ApartmentModalFull.handleAddNewEmployee
    rw [hv]
    exact ⟨rfl, rfl⟩
  · unfold ApartmentModalFull.handleAddNewEmployee
    rcases hb : ApartmentModalFull.newEmployeeSchemaCheck st.newEmployee with _ | _
    · simp only [Bool.false_eq_true, if_false]
      constructor
      · intro h
        exact absurd h (by simp)
      · intro h
        exact absurd (hval.mpr h) (by simp [hb])
    · rcases requestSucceeds with _ | _
      · simp only [if_true, Bool.false_eq_true, if_false]
        exact ⟨fun _ => hval.mp hb, fun _ => trivial⟩
      · simp only [if_true]
        exact ⟨fun _ => hval.mp hb, fun _ => trivial⟩

/-- C5 witness: a blank last name issues no request and shows the validation
toast, and non-blank names issue the request. -/
theorem c5_subform_validation_witness :
    ((ApartmentModalFull.handleAddNewEmployee
        ⟨⟨"Maria", ""⟩, true⟩ true "boom").requestIssued = false ∧
     (ApartmentModalFull.handleAddNewEmployee
        ⟨⟨"Maria", ""⟩, true⟩ true "boom").toast =
       { title := "Errore", description := "Nome e cognome sono obbligatori.",
         destructive := true }) ∧
    ((ApartmentModalFull.handleAddNewEmployee
        ⟨⟨"Maria", "Rossi"⟩, true⟩ true "boom").requestIssued = true) :=
  ⟨(c5_subform_validation ⟨⟨"Maria", ""⟩, true⟩ true "boom").1 (Or.inr rfl),
   (c5_subform_validation ⟨⟨"Maria", "Rossi"⟩, true⟩ true "boom").2.mpr
     ⟨by decide, by decide⟩⟩

/-- C6: when the names validate and the create request fails, the component
state is exactly the prior state (fields intact, sub-form still open) and a
destructive toast is shown; when the request succeeds the fields are
cleared and the sub-form closed. -/
theorem c6_failure_atomicity (st : ApartmentModalFull.AddEmployeeState)
    (errMsg : String)
    (hval : ApartmentModalFull.newEmployeeSchemaCheck st.newEmployee = true)
    (hopen : st.showAddEmployee = true) :
    (ApartmentModalFull.handleAddNewEmployee st false errMsg).finalState = st ∧
    (ApartmentModalFull.handleAddNewEmployee st false errMsg).finalState.newEmployee
      = st.newEmployee ∧
    (ApartmentModalFull.handleAddNewEmployee st false errMsg).finalState.showAddEmployee
      = true ∧
    (ApartmentModalFull.handleAddNewEmployee st false errMsg).toast.destructive
      = true ∧
    (ApartmentModalFull.handleAddNewEmployee st true errMsg).finalState =
      { newEmployee := { first_name := "", last_name := "" },
        showAddEmployee := false } := by
  unfold ApartmentModalFull.handleAddNewEmployee
  rw [hval]
  exact ⟨rfl, rfl, hopen, rfl, rfl⟩

/-- C6 witness: a failing request leaves the concrete open sub-form state
untouched and shows a destructive toast; a succeeding one clears it. -/
theorem c6_failure_atomicity_witness :
    (ApartmentModalFull.handleAddNewEmployee
       ⟨⟨"Maria", "Rossi"⟩, true⟩ false "rete giu").finalState =
      ⟨⟨"Maria", "Rossi"⟩, true⟩ ∧
    (ApartmentModalFull.handleAddNewEmployee
       ⟨⟨"Maria", "Rossi"⟩, true⟩ false "rete giu").toast.destructive = true ∧
    (ApartmentModalFull.handleAddNewEmployee
       ⟨⟨"Maria", "Rossi"⟩, true⟩ true "rete giu").finalState =
      ⟨⟨"", ""⟩, false⟩ :=
  ⟨(c6_failure_atomicity ⟨⟨"Maria", "Rossi"⟩, true⟩ "rete giu"
      (by decide) rfl).1,
   (c6_failure_atomicity ⟨⟨"Maria", "Rossi"⟩, true⟩ "rete giu"
      (by decide) rfl).2.2.2.1,
   (c6_failure_atomicity ⟨⟨"Maria", "Rossi"⟩, true⟩ "rete giu"
      (by decide) rfl).2.2.2.2⟩

/-- C7: the displayed checklist for search string `s` contains exactly the
input employees whose lower-cased "first last" name contains the
lower-cased `s` as a substring, and for the empty search the displayed
list is the input list itself, unchanged. -/
theorem c7_employee_search (employees : List Employee) (s : String) :
    (ApartmentModalFull.filteredEmployees employees "" = employees) ∧
    (∀ e : Employee,
      e ∈ ApartmentModalFull.filteredEmployees employees s ↔
        e ∈ employees ∧
        jsIncludes (jsToLowerCase (ApartmentModalFull.employeeFullName e))
          (jsToLowerCase s) = true) := by
  constructor
  · simp [ApartmentModalFull.filteredEmployees]
  · intro e
    by_cases hs : s = ""
    · subst hs
      rw [jsToLowerCase_empty]
      simp [ApartmentModalFull.filteredEmployees, jsIncludes_empty]
    · simp [ApartmentModalFull.filteredEmployees, hs, List.mem_filter]

/-! Helper lemmas for the checkbox toggle behaviour. -/

/-- A checkbox renders checked exactly when its id is in the list. -/
theorem checkboxChecked_iff (l : List Int) (e : Int) :
    ApartmentModalFull.checkboxChecked l e = true ↔ e ∈ l := by
  simp [ApartmentModalFull.checkboxChecked, List.contains]

/-- Toggling a checked id filters out its occurrences. -/
theorem toggle_of_mem {l : List Int} {e : Int} (h : e ∈ l) :
    ApartmentModalFull.toggleEmployee l e = l.filter (fun value => value != e) := by
  unfold ApartmentModalFull.toggleEmployee ApartmentModalFull.onCheckedChange
  rw [(checkboxChecked_iff l e).mpr h]
  rfl

/-- Toggling an unchecked id appends it. -/
theorem toggle_of_not_mem {l : List Int} {e : Int} (h : e ∉ l) :
    ApartmentModalFull.toggleEmployee l e = l ++ [e] := by
  unfold ApartmentModalFull.toggleEmployee ApartmentModalFull.onCheckedChange
  have hc : ApartmentModalFull.checkboxChecked l e = false := by
    rcases hb : ApartmentModalFull.checkboxChecked l e with _ | _
    · rfl
    · exact absurd ((checkboxChecked_iff l e).mp hb) h
  rw [hc]
  rfl

/-- Membership after toggling a checked id. -/
theorem mem_toggle_of_mem {l : List Int} {e : Int} (h : e ∈ l) (x : Int) :
    x ∈ ApartmentModalFull.toggleEmployee l e ↔ x ∈ l ∧ x ≠ e := by
  rw [toggle_of_mem h]
  simp [List.mem_filter]

/-- Membership after toggling an unchecked id. -/
theorem mem_toggle_of_not_mem {l : List Int} {e : Int} (h : e ∉ l) (x : Int) :
    x ∈ ApartmentModalFull.toggleEmployee l e ↔ x ∈ l ∨ x = e := by
  rw [toggle_of_not_mem h]
  simp

/-- A toggle preserves freedom from duplicates. -/
theorem toggle_nodup {l : List Int} (h : l.Nodup) (e : Int) :
    (ApartmentModalFull.toggleEmployee l e).Nodup := by
  by_cases hm : e ∈ l
  · rw [toggle_of_mem hm]
    exact h.filter _
  · rw [toggle_of_not_mem hm]
    simp [List.nodup_append, h, hm]

/-- Any sequence of toggles preserves freedom from duplicates. -/
theorem toggleSeq_nodup (init : List Int) (h : init.Nodup) (evs : List Int) :
    (evs.foldl ApartmentModalFull.toggleEmployee init).Nodup := by
  induction evs generalizing init with
  | nil => exact h
  | cons e rest ih => exact ih _ (toggle_nodup h e)

/-- Checking an unchecked id adds exactly one occurrence of it and changes
no other count. -/
theorem toggle_count_check {l : List Int} {e : Int} (h : e ∉ l) :
    (ApartmentModalFull.toggleEmployee l e).count e = 1 ∧ l.count e = 0 ∧
    (∀ x, x ≠ e → (ApartmentModalFull.toggleEmployee l e).count x = l.count x) := by
  rw [toggle_of_not_mem h]
  refine ⟨?_, List.count_eq_zero.mpr h, fun x hx => ?_⟩
  · simp [List.count_append, List.count_eq_zero.mpr h]
  · simp [List.count_append, List.count_singleton, hx]

/-- Unchecking a checked id removes all its occurrences. -/
theorem toggle_count_uncheck {l : List Int} {e : Int} (h : e ∈ l) :
    (ApartmentModalFull.toggleEmployee l e).count e = 0 := by
  rw [toggle_of_mem h]
  rw [List.count_eq_zero]
  intro hmem
  have hne := (List.mem_filter.mp hmem).2
  simp at hne

/-- A double toggle leaves membership unchanged. -/
theorem toggle_toggle_mem (l : List Int) (e x : Int) :
    x ∈ ApartmentModalFull.toggleEmployee (ApartmentModalFull.toggleEmployee l e) e
      ↔ x ∈ l := by
  by_cases hm : e ∈ l
  · have h1 : e ∉ ApartmentModalFull.toggleEmployee l e := by
      rw [mem_toggle_of_mem hm]
      simp
    rw [mem_toggle_of_not_mem h1, mem_toggle_of_mem hm]
    constructor
    · rintro (⟨hx, _⟩ | rfl)
      · exact hx
      · exact hm
    · intro hx
      by_cases hxe : x = e
      · exact Or.inr hxe
      · exact Or.inl ⟨hx, hxe⟩
  · have h1 : e ∈ ApartmentModalFull.toggleEmployee l e := by
      rw [mem_toggle_of_not_mem hm]
      exact Or.inr rfl
    rw [mem_toggle_of_mem h1, mem_toggle_of_not_mem hm]
    constructor
    · rintro ⟨hx | rfl, hxe⟩
      · exact hx
      · exact absurd rfl hxe
    · intro hx
      refine ⟨Or.inl hx, fun hxe => hm (hxe ▸ hx)⟩

/-- C1: starting from a duplicate-free id list, after any sequence of
checkbox toggles the id list is duplicate-free and lists exactly the
checked checkboxes; checking an unchecked box adds exactly one occurrence
of its id and no other, unchecking removes all occurrences, and a double
toggle restores the original membership. -/
theorem c1_checkbox_invariant (init : List Int) (hinit : init.Nodup)
    (evs : List Int) :
    (evs.foldl ApartmentModalFull.toggleEmployee init).Nodup ∧
    (∀ x, ApartmentModalFull.checkboxChecked
        (evs.foldl ApartmentModalFull.toggleEmployee init) x = true ↔
      x ∈ evs.foldl ApartmentModalFull.toggleEmployee init) ∧
    (∀ e, e ∉ evs.foldl ApartmentModalFull.toggleEmployee init →
      (ApartmentModalFull.toggleEmployee
        (evs.foldl ApartmentModalFull.toggleEmployee init) e).count e = 1 ∧
      (evs.foldl ApartmentModalFull.toggleEmployee init).count e = 0 ∧
      (∀ x, x ≠ e →
        (ApartmentModalFull.toggleEmployee
          (evs.foldl ApartmentModalFull.toggleEmployee init) e).count x =
        (evs.foldl ApartmentModalFull.toggleEmployee init).count x)) ∧
    (∀ e, e ∈ evs.foldl ApartmentModalFull.toggleEmployee init →
      (ApartmentModalFull.toggleEmployee
        (evs.foldl ApartmentModalFull.toggleEmployee init) e).count e = 0) ∧
    (∀ e x, x ∈ ApartmentModalFull.toggleEmployee
        (ApartmentModalFull.toggleEmployee
          (evs.foldl ApartmentModalFull.toggleEmployee init) e) e ↔
      x ∈ evs.foldl ApartmentModalFull.toggleEmployee init) :=
  ⟨toggleSeq_nodup init hinit evs,
   fun x => checkboxChecked_iff _ x,
   fun _ he => toggle_count_check he,
   fun _ he => toggle_count_uncheck he,
   fun e x => toggle_toggle_mem _ e x⟩

/-- C1 witness: starting from the duplicate-free list `[1, 2]` and toggling
3 (check) then 2 (uncheck), all conjuncts hold at the resulting list. -/
theorem c1_checkbox_invariant_witness :
    ([1, 2] : List Int).Nodup ∧
    (([3, 2] : List Int).foldl ApartmentModalFull.toggleEmployee [1, 2]).Nodup ∧
    (∀ x, ApartmentModalFull.checkboxChecked
        (([3, 2] : List Int).foldl ApartmentModalFull.toggleEmployee [1, 2]) x = true ↔
      x ∈ ([3, 2] : List Int).foldl ApartmentModalFull.toggleEmployee [1, 2]) ∧
    (∀ e, e ∉ ([3, 2] : List Int).foldl ApartmentModalFull.toggleEmployee [1, 2] →
      (ApartmentModalFull.toggleEmployee
        (([3, 2] : List Int).foldl ApartmentModalFull.toggleEmployee [1, 2]) e).count e = 1 ∧
      (([3, 2] : List Int).foldl ApartmentModalFull.toggleEmployee [1, 2]).count e = 0 ∧
      (∀ x, x ≠ e →
        (ApartmentModalFull.toggleEmployee
          (([3, 2] : List Int).foldl ApartmentModalFull.toggleEmployee [1, 2]) e).count x =
        (([3, 2] : List Int).foldl ApartmentModalFull.toggleEmployee [1, 2]).count x)) ∧
    (∀ e, e ∈ ([3, 2] : List Int).foldl ApartmentModalFull.toggleEmployee [1, 2] →
      (ApartmentModalFull.toggleEmployee
        (([3, 2] : List Int).foldl ApartmentModalFull.toggleEmployee [1, 2]) e).count e = 0) ∧
    (∀ e x, x ∈ ApartmentModalFull.toggleEmployee
        (ApartmentModalFull.toggleEmployee
          (([3, 2] : List Int).foldl ApartmentModalFull.toggleEmployee [1, 2]) e) e ↔
      x ∈ ([3, 2] : List Int).foldl ApartmentModalFull.toggleEmployee [1, 2]) :=
  ⟨by decide, c1_checkbox_invariant [1, 2] (by decide) [3, 2]⟩
